import Mathlib

/-!
# Box extrusion: a shallow embedding of `main.js` and `multiple_extrusion.js`

Both scripts keep a handful of global variables and mutate them from three
kinds of callbacks: the window-level click listener, the timeout callback
scheduled by the click action of the box mesh, and the per-frame observer
registered on the box.  Each callback is embedded as a function on an explicit
state record; a run of the program is a list of events folded over the state.

JavaScript numbers that hold coordinates, dimensions and the animation
parameter are embedded as exact rationals (`0.01` is `1/100`, `0.5` is
`1/2`); click counters are naturals.  `undefined` is `none`.
-/

/-- A triple of numbers: a point, a normal, a scaling or a set of dimensions. -/
structure Vec3 where
  x : ℚ
  y : ℚ
  z : ℚ
deriving DecidableEq

/-- The six canonical unit normals of an axis-aligned box. -/
def canonicalNormals : List Vec3 :=
  [⟨1, 0, 0⟩, ⟨-1, 0, 0⟩, ⟨0, 1, 0⟩, ⟨0, -1, 0⟩, ⟨0, 0, 1⟩, ⟨0, 0, -1⟩]

/-- JavaScript truthiness of a number (there is no NaN among rationals). -/
def truthy (q : ℚ) : Bool := decide (q ≠ 0)

/-- JavaScript conversion of a boolean to a number, as done by `+`. -/
def boolToNumber (b : Bool) : ℚ := if b then 1 else 0

/-- The scaling `b` has the factor `v` on the axis of the normal `n` and 1 on
the other two axes. -/
def scaledAlong (n b : Vec3) (v : ℚ) : Prop :=
  (n.x ≠ 0 → b = ⟨v, 1, 1⟩) ∧ (n.y ≠ 0 → b = ⟨1, v, 1⟩) ∧ (n.z ≠ 0 → b = ⟨1, 1, v⟩)

instance (n b : Vec3) (v : ℚ) : Decidable (scaledAlong n b v) := by
  unfold scaledAlong
  infer_instance

namespace MultipleExtrusion

/-- The object `clicks = { 1: .., 2: .., 3: .., 4: .., 5: .., 6: .. }`. -/
structure Clicks where
  c1 : Nat
  c2 : Nat
  c3 : Nat
  c4 : Nat
  c5 : Nat
  c6 : Nat
deriving DecidableEq

/-- Property read `clicks[sideID]`: `undefined` for any key other than 1..6. -/
def Clicks.get (c : Clicks) (sideID : Option Int) : Option Nat :=
  match sideID with
  | none => none
  | some k =>
    if k = 1 then some c.c1
    else if k = 2 then some c.c2
    else if k = 3 then some c.c3
    else if k = 4 then some c.c4
    else if k = 5 then some c.c5
    else if k = 6 then some c.c6
    else none

/-- The update `clicks[sideID] += 1`.  The source only executes it under a guard
`clicks[sideID] === 0` or `clicks[sideID] === 1`, so the key is one of 1..6. -/
def Clicks.incr (c : Clicks) (sideID : Option Int) : Clicks :=
  match sideID with
  | none => c
  | some k =>
    if k = 1 then { c with c1 := c.c1 + 1 }
    else if k = 2 then { c with c2 := c.c2 + 1 }
    else if k = 3 then { c with c3 := c.c3 + 1 }
    else if k = 4 then { c with c4 := c.c4 + 1 }
    else if k = 5 then { c with c5 := c.c5 + 1 }
    else if k = 6 then { c with c6 := c.c6 + 1 }
    else c

/-- The part of a box mesh the script reads or writes: the dimensions it was
built with, its position, pivot point and scaling, and the number of callbacks
registered on its `onBeforeRenderObservable`. -/
structure Box where
  width : ℚ
  height : ℚ
  depth : ℚ
  position : Vec3
  pivot : Vec3
  scaling : Vec3
  observers : Nat
deriving DecidableEq

/-- The global variables of the script, the closure variable `t` of
`createScene`, and the current box mesh. -/
structure State where
  clicks : Clicks
  enabled : Bool
  pivotPointCoord : Vec3
  center : Vec3
  cubeSide : Vec3
  sideID : Option Int
  t : ℚ
  box : Box
deriving DecidableEq

/-- Function `getSideID(normal)`: falls off the end (`undefined`) when no test
matches. -/
def getSideID (normal : Vec3) : Option Int :=
  if normal.x = 1 then some 1
  else if normal.x = -1 then some 2
  else if normal.y = 1 then some 3
  else if normal.y = -1 then some 4
  else if normal.z = 1 then some 5
  else if normal.z = -1 then some 6
  else none

/-- Function `createBox()`: a fresh mesh has unit scaling and no observers.  The
callbacks registered on the mesh it replaces stay with that mesh, which
`scene.removeMesh` takes out of the rendered scene. -/
def createBox (cubeSide center pivotPointCoord : Vec3) : Box :=
  { width := cubeSide.x, height := cubeSide.y, depth := cubeSide.z,
    position := ⟨center.x, center.y, center.z⟩,
    pivot := ⟨pivotPointCoord.x, pivotPointCoord.y, pivotPointCoord.z⟩,
    scaling := ⟨1, 1, 1⟩,
    observers := 0 }

/-- The globals as `renderSceneAndEngine` leaves them, with the box and `t` of
`createScene`. -/
def renderSceneAndEngine : State :=
  { clicks := ⟨0, 0, 0, 0, 0, 0⟩,
    enabled := false,
    pivotPointCoord := ⟨0, 0, 0⟩,
    center := ⟨0, 0, 0⟩,
    cubeSide := ⟨1, 1, 1⟩,
    sideID := some (-1),
    t := 0,
    box := createBox ⟨1, 1, 1⟩ ⟨0, 0, 0⟩ ⟨0, 0, 0⟩ }

/-- The callback added to `box.onBeforeRenderObservable` (lines 169-178). -/
def onBeforeRender (s : State) : State :=
  let t := s.t + 1 / 100
  if s.sideID = some 1 ∨ s.sideID = some 2 then
    { s with t := t, box := { s.box with scaling := ⟨t * (1 / 2) + 2, 1, 1⟩ } }
  else if s.sideID = some 3 ∨ s.sideID = some 4 then
    { s with t := t, box := { s.box with scaling := ⟨1, t * (1 / 2) + 2, 1⟩ } }
  else if s.sideID = some 5 ∨ s.sideID = some 6 then
    { s with t := t, box := { s.box with scaling := ⟨1, 1, t * (1 / 2) + 2⟩ } }
  else
    { s with t := t }

/-- One rendered frame: every callback registered on the current box runs. -/
def render (s : State) : State :=
  Nat.iterate onBeforeRender s.box.observers s

/-- Step 1 of the commit (lines 200-217): the new dimension and centre.  The
expression `center.x + (sideID === 1) ? a : b` parses as
`(center.x + (sideID === 1)) ? a : b`. -/
def commitDimensions (s : State) : State :=
  if s.sideID = some 1 ∨ s.sideID = some 2 then
    let diff := s.cubeSide.x
    let cx := s.cubeSide.x * s.box.scaling.x
    let diff := cx - diff
    { s with
      cubeSide := { s.cubeSide with x := cx },
      center := { s.center with
        x := if truthy (s.center.x + boolToNumber (decide (s.sideID = some 1)))
             then diff / 2 else (-1 * diff) / 2 } }
  else if s.sideID = some 3 ∨ s.sideID = some 4 then
    let diff := s.cubeSide.y
    let cy := (s.t * (1 / 2) + 2) * s.cubeSide.y
    let diff := cy - diff
    { s with
      cubeSide := { s.cubeSide with y := cy },
      center := { s.center with
        y := if truthy (s.center.y + boolToNumber (decide (s.sideID = some 3)))
             then diff / 2 else (-1 * diff) / 2 } }
  else if s.sideID = some 5 ∨ s.sideID = some 6 then
    let diff := s.cubeSide.z
    let cz := (s.t * (1 / 2) + 2) * s.cubeSide.z
    let diff := cz - diff
    { s with
      cubeSide := { s.cubeSide with z := cz },
      center := { s.center with
        z := if truthy (s.center.z + boolToNumber (decide (s.sideID = some 5)))
             then diff / 2 else (-1 * diff) / 2 } }
  else s

/-- The timeout callback of `actionFunc` (lines 160-243). -/
def actionFunc (s : State) : State :=
  if s.clicks.get s.sideID = some 0 then
    if s.enabled = false then
      { s with
        box := { s.box with observers := s.box.observers + 1 },
        enabled := true,
        clicks := s.clicks.incr s.sideID }
    else s
  else if s.clicks.get s.sideID = some 1 then
    let s1 := commitDimensions s
    let s2 := { s1 with t := 0 }
    let s3 := { s2 with box := createBox s2.cubeSide s2.center s2.pivotPointCoord }
    { s3 with clicks := s3.clicks.incr s3.sideID, enabled := false }
  else s

/-- The window click listener (lines 250-282); `pick` is `none` for a miss and
the normal of the picked face for a hit. -/
def windowClick (pick : Option Vec3) (s : State) : State :=
  match pick with
  | none => s
  | some normal =>
    let s1 := { s with sideID := getSideID normal }
    if s1.clicks.get s1.sideID = some 0 then
      if s1.enabled = false then
        let p : Vec3 :=
          if s1.sideID = some 1 ∨ s1.sideID = some 2 then
            ⟨-s1.cubeSide.x * (1 / 2) * normal.x + s1.center.x, s1.center.y, s1.center.z⟩
          else if s1.sideID = some 3 ∨ s1.sideID = some 4 then
            ⟨s1.center.x, -s1.cubeSide.y * (1 / 2) * normal.y + s1.center.y, s1.center.z⟩
          else if s1.sideID = some 5 ∨ s1.sideID = some 6 then
            ⟨s1.center.x, s1.center.y, -s1.cubeSide.z * (1 / 2) * normal.z + s1.center.z⟩
          else s1.pivotPointCoord
        { s1 with pivotPointCoord := p, box := { s1.box with pivot := ⟨p.x, p.y, p.z⟩ } }
      else s1
    else s1

/-- What the host event loop can deliver. -/
inductive Event where
  | click (pick : Option Vec3)
  | timeout
  | frame
deriving DecidableEq

/-- One event applied to the state. -/
def step (s : State) : Event → State
  | Event.click pick => windowClick pick s
  | Event.timeout => actionFunc s
  | Event.frame => render s

/-- A run: the events in order. -/
def run (es : List Event) (s : State) : State :=
  es.foldl step s

/-- How many of the six counters equal 1, that is, how many faces are
mid-extrusion. -/
def Clicks.extruding (c : Clicks) : Nat :=
  (if c.c1 = 1 then 1 else 0) + (if c.c2 = 1 then 1 else 0) + (if c.c3 = 1 then 1 else 0) +
  (if c.c4 = 1 then 1 else 0) + (if c.c5 = 1 then 1 else 0) + (if c.c6 = 1 then 1 else 0)

/-- No counter is beyond the committed value 2. -/
def Clicks.bounded (c : Clicks) : Prop :=
  c.c1 ≤ 2 ∧ c.c2 ≤ 2 ∧ c.c3 ≤ 2 ∧ c.c4 ≤ 2 ∧ c.c5 ≤ 2 ∧ c.c6 ≤ 2

/-- The click on the +X face that starts its extrusion, from the initial
state: the window listener, then the timeout callback. -/
def startPlusX : List Event :=
  [Event.click (some ⟨1, 0, 0⟩), Event.timeout]

/-- A full extrusion of the +Y face from the initial state, with one rendered
frame between the two clicks. -/
def extrudePlusY : List Event :=
  [Event.click (some ⟨0, 1, 0⟩), Event.timeout, Event.frame,
   Event.click (some ⟨0, 1, 0⟩), Event.timeout]

/-- A full extrusion of the +X face over `n` rendered frames. -/
def extrudePlusX (n : Nat) : List Event :=
  startPlusX ++ List.replicate n Event.frame ++ startPlusX

/-- The start of an extrusion of the -X face followed by `n` rendered frames and
the window click of the second click on that face (its timeout callback is
still pending). -/
def extrudingMinusX (n : Nat) : List Event :=
  [Event.click (some ⟨-1, 0, 0⟩), Event.timeout] ++ List.replicate n Event.frame ++
    [Event.click (some ⟨-1, 0, 0⟩)]

/-- The +X face starts extruding, two frames are rendered, a click lands on a
mesh whose normal is (0,1,0) (the top face or the ground), one more frame is
rendered, and the +X face is clicked again; the timeout callback of that last
click is still pending. -/
def detourThenPlusX : List Event :=
  startPlusX ++ [Event.frame, Event.frame, Event.click (some ⟨0, 1, 0⟩), Event.frame,
    Event.click (some ⟨1, 0, 0⟩)]

end MultipleExtrusion

namespace Main

/-- The part of the box mesh of `main.js` that the script reads or writes. -/
structure Box where
  pivot : Vec3
  scaling : Vec3
  observers : Nat
deriving DecidableEq

/-- The globals `clicks` and `pivotPointCoord`, the closure variable `t` of
`createScene`, and the current box mesh. -/
structure State where
  clicks : Nat
  pivotPointCoord : Vec3
  t : ℚ
  box : Box
deriving DecidableEq

/-- Function `createBox()` of `main.js`. -/
def createBox (pivotPointCoord : Vec3) : Box :=
  { pivot := ⟨pivotPointCoord.x, pivotPointCoord.y, pivotPointCoord.z⟩,
    scaling := ⟨1, 1, 1⟩,
    observers := 0 }

/-- The globals as `renderSceneAndEngine` of `main.js` leaves them. -/
def renderSceneAndEngine : State :=
  { clicks := 0, pivotPointCoord := ⟨0, 0, 0⟩, t := 0, box := createBox ⟨0, 0, 0⟩ }

/-- The window click listener of `main.js` (lines 99-118). -/
def windowClick (pick : Option Vec3) (s : State) : State :=
  if s.clicks = 0 then
    match pick with
    | none => s
    | some normal =>
      let p : Vec3 := ⟨-(1 / 2) * normal.x, -(1 / 2) * normal.y, -(1 / 2) * normal.z⟩
      { s with pivotPointCoord := p, box := { s.box with pivot := ⟨p.x, p.y, p.z⟩ } }
  else s

/-- The per-frame callback of `main.js` (lines 157-166), with the second test
written as in the source: `z` compared twice. -/
def onBeforeRender (s : State) : State :=
  let t := s.t + 1 / 100
  if s.pivotPointCoord.y = 0 ∧ s.pivotPointCoord.z = 0 then
    { s with t := t, box := { s.box with scaling := ⟨t * (1 / 2) + 2, 1, 1⟩ } }
  else if s.pivotPointCoord.z = 0 ∧ s.pivotPointCoord.z = 0 then
    { s with t := t, box := { s.box with scaling := ⟨1, t * (1 / 2) + 2, 1⟩ } }
  else if s.pivotPointCoord.x = 0 ∧ s.pivotPointCoord.y = 0 then
    { s with t := t, box := { s.box with scaling := ⟨1, 1, t * (1 / 2) + 2⟩ } }
  else
    { s with t := t }

/-- One rendered frame of `main.js`. -/
def render (s : State) : State :=
  Nat.iterate onBeforeRender s.box.observers s

/-- The timeout callback of the click action of `main.js` (lines 150-180). -/
def timeoutCallback (s : State) : State :=
  if s.clicks = 0 then
    { s with box := { s.box with observers := s.box.observers + 1 }, clicks := s.clicks + 1 }
  else
    let newbox := createBox s.pivotPointCoord
    { s with box := { newbox with scaling := ⟨s.box.scaling.x, s.box.scaling.y, s.box.scaling.z⟩ } }

end Main

namespace MultipleExtrusion

/-! ## `multiple_extrusion.js`: counters -/

theorem Clicks.get_some_range (c : Clicks) (f : Int) (v : Nat)
    (h : c.get (some f) = some v) : f = 1 ∨ f = 2 ∨ f = 3 ∨ f = 4 ∨ f = 5 ∨ f = 6 := by
  by_contra hne
  simp only [not_or] at hne
  obtain ⟨h1, h2, h3, h4, h5, h6⟩ := hne
  simp [Clicks.get, h1, h2, h3, h4, h5, h6] at h

theorem Clicks.get_eq_some (c : Clicks) (k : Option Int) (v : Nat)
    (h : c.get k = some v) : ∃ f : Int, k = some f := by
  cases k with
  | none => simp [Clicks.get] at h
  | some f => exact ⟨f, rfl⟩

theorem Clicks.get_incr_self (c : Clicks) (f : Int) (v : Nat)
    (h : c.get (some f) = some v) : (c.incr (some f)).get (some f) = some (v + 1) := by
  rcases Clicks.get_some_range c f v h with rfl | rfl | rfl | rfl | rfl | rfl <;>
    simpa [Clicks.get, Clicks.incr] using h

theorem Clicks.get_incr_other (c : Clicks) (f g : Int) (hne : g ≠ f) :
    (c.incr (some f)).get (some g) = c.get (some g) := by
  simp only [Clicks.incr]
  split_ifs <;> subst_vars <;> simp [Clicks.get, hne]

theorem Clicks.bounded_incr (c : Clicks) (f : Int) (v : Nat)
    (h : c.get (some f) = some v) (hv : v ≤ 1) (hb : c.bounded) :
    (c.incr (some f)).bounded := by
  obtain ⟨b1, b2, b3, b4, b5, b6⟩ := hb
  rcases Clicks.get_some_range c f v h with rfl | rfl | rfl | rfl | rfl | rfl <;>
    simp [Clicks.get] at h <;> simp [Clicks.incr, Clicks.bounded] <;> omega

theorem Clicks.extruding_incr_zero (c : Clicks) (f : Int)
    (h : c.get (some f) = some 0) : (c.incr (some f)).extruding = c.extruding + 1 := by
  rcases Clicks.get_some_range c f 0 h with rfl | rfl | rfl | rfl | rfl | rfl <;>
    simp [Clicks.get] at h <;> simp [Clicks.incr, Clicks.extruding, h] <;> omega

theorem Clicks.extruding_incr_one (c : Clicks) (f : Int)
    (h : c.get (some f) = some 1) : (c.incr (some f)).extruding + 1 = c.extruding := by
  rcases Clicks.get_some_range c f 1 h with rfl | rfl | rfl | rfl | rfl | rfl <;>
    simp [Clicks.get] at h <;> simp [Clicks.incr, Clicks.extruding, h] <;> omega

theorem Clicks.extruding_pos (c : Clicks) (f : Int)
    (h : c.get (some f) = some 1) : 1 ≤ c.extruding := by
  rcases Clicks.get_some_range c f 1 h with rfl | rfl | rfl | rfl | rfl | rfl <;>
    simp [Clicks.get] at h <;> simp [Clicks.extruding, h] <;> omega

theorem Clicks.extruding_unique (c : Clicks) (f g : Int) (hc : c.extruding ≤ 1)
    (hf : c.get (some f) = some 1) (hg : c.get (some g) = some 1) : f = g := by
  rcases Clicks.get_some_range c f 1 hf with rfl | rfl | rfl | rfl | rfl | rfl <;>
    rcases Clicks.get_some_range c g 1 hg with rfl | rfl | rfl | rfl | rfl | rfl <;>
    first
      | rfl
      | (simp [Clicks.get] at hf hg
         simp [Clicks.extruding, hf, hg] at hc
         try omega)

theorem Clicks.extruding_exists (c : Clicks) (hc : 1 ≤ c.extruding) :
    ∃ f : Int, c.get (some f) = some 1 := by
  by_contra hno
  simp only [not_exists] at hno
  have h1 := hno 1
  have h2 := hno 2
  have h3 := hno 3
  have h4 := hno 4
  have h5 := hno 5
  have h6 := hno 6
  simp [Clicks.get] at h1 h2 h3 h4 h5 h6
  simp [Clicks.extruding, h1, h2, h3, h4, h5, h6] at hc

end MultipleExtrusion

namespace MultipleExtrusion

/-! ## `multiple_extrusion.js`: what each callback leaves alone -/

theorem onBeforeRender_globals (s : State) :
    (onBeforeRender s).clicks = s.clicks ∧ (onBeforeRender s).enabled = s.enabled ∧
    (onBeforeRender s).center = s.center ∧ (onBeforeRender s).cubeSide = s.cubeSide ∧
    (onBeforeRender s).pivotPointCoord = s.pivotPointCoord ∧
    (onBeforeRender s).sideID = s.sideID ∧
    (onBeforeRender s).box.observers = s.box.observers := by
  unfold onBeforeRender
  simp only
  split_ifs <;> exact ⟨rfl, rfl, rfl, rfl, rfl, rfl, rfl⟩

theorem iterate_onBeforeRender_globals (n : Nat) (s : State) :
    (Nat.iterate onBeforeRender n s).clicks = s.clicks ∧
    (Nat.iterate onBeforeRender n s).enabled = s.enabled ∧
    (Nat.iterate onBeforeRender n s).center = s.center ∧
    (Nat.iterate onBeforeRender n s).cubeSide = s.cubeSide ∧
    (Nat.iterate onBeforeRender n s).pivotPointCoord = s.pivotPointCoord ∧
    (Nat.iterate onBeforeRender n s).sideID = s.sideID ∧
    (Nat.iterate onBeforeRender n s).box.observers = s.box.observers := by
  induction n generalizing s with
  | zero => exact ⟨rfl, rfl, rfl, rfl, rfl, rfl, rfl⟩
  | succ k ih =>
    obtain ⟨a1, a2, a3, a4, a5, a6, a7⟩ := onBeforeRender_globals s
    obtain ⟨b1, b2, b3, b4, b5, b6, b7⟩ := ih (onBeforeRender s)
    simp only [Function.iterate_succ, Function.comp]
    exact ⟨b1.trans a1, b2.trans a2, b3.trans a3, b4.trans a4, b5.trans a5, b6.trans a6,
      b7.trans a7⟩

theorem render_globals (s : State) :
    (render s).clicks = s.clicks ∧ (render s).enabled = s.enabled ∧
    (render s).center = s.center ∧ (render s).cubeSide = s.cubeSide ∧
    (render s).pivotPointCoord = s.pivotPointCoord ∧ (render s).sideID = s.sideID ∧
    (render s).box.observers = s.box.observers :=
  iterate_onBeforeRender_globals s.box.observers s

theorem windowClick_globals (pick : Option Vec3) (s : State) :
    (windowClick pick s).clicks = s.clicks ∧ (windowClick pick s).enabled = s.enabled ∧
    (windowClick pick s).center = s.center ∧ (windowClick pick s).cubeSide = s.cubeSide ∧
    (windowClick pick s).t = s.t ∧ (windowClick pick s).box.scaling = s.box.scaling ∧
    (windowClick pick s).box.observers = s.box.observers := by
  cases pick with
  | none => exact ⟨rfl, rfl, rfl, rfl, rfl, rfl, rfl⟩
  | some n =>
    simp only [windowClick]
    split_ifs <;> exact ⟨rfl, rfl, rfl, rfl, rfl, rfl, rfl⟩

theorem windowClick_sideID (n : Vec3) (s : State) :
    (windowClick (some n) s).sideID = getSideID n := by
  simp only [windowClick]
  split_ifs <;> rfl

theorem commitDimensions_globals (s : State) :
    (commitDimensions s).clicks = s.clicks ∧ (commitDimensions s).enabled = s.enabled ∧
    (commitDimensions s).sideID = s.sideID ∧
    (commitDimensions s).pivotPointCoord = s.pivotPointCoord := by
  unfold commitDimensions
  simp only
  split_ifs <;> exact ⟨rfl, rfl, rfl, rfl⟩

/-- The three cases of the timeout callback, by the counter of the clicked
face. -/
theorem actionFunc_cases (s : State) :
    (s.clicks.get s.sideID = some 0 ∧ s.enabled = false ∧
      (actionFunc s).clicks = s.clicks.incr s.sideID ∧ (actionFunc s).enabled = true ∧
      (actionFunc s).center = s.center ∧ (actionFunc s).cubeSide = s.cubeSide ∧
      (actionFunc s).pivotPointCoord = s.pivotPointCoord) ∨
    (s.clicks.get s.sideID = some 1 ∧
      (actionFunc s).clicks = s.clicks.incr s.sideID ∧ (actionFunc s).enabled = false ∧
      (actionFunc s).center = (commitDimensions s).center ∧
      (actionFunc s).cubeSide = (commitDimensions s).cubeSide ∧
      (actionFunc s).pivotPointCoord = s.pivotPointCoord) ∨
    (¬ (s.clicks.get s.sideID = some 0 ∧ s.enabled = false) ∧
      s.clicks.get s.sideID ≠ some 1 ∧ actionFunc s = s) := by
  by_cases h0 : s.clicks.get s.sideID = some 0
  · by_cases he : s.enabled = false
    · have e : actionFunc s = { s with
          box := { s.box with observers := s.box.observers + 1 },
          enabled := true,
          clicks := s.clicks.incr s.sideID } := by
        simp [actionFunc, h0, he]
      left
      rw [e]
      exact ⟨h0, he, rfl, rfl, rfl, rfl, rfl⟩
    · have e : actionFunc s = s := by
        simp [actionFunc, h0, he]
      refine Or.inr (Or.inr ⟨fun h => he h.2, ?_, e⟩)
      rw [h0]; simp
  · by_cases h1 : s.clicks.get s.sideID = some 1
    · obtain ⟨c1, c2, c3, c4⟩ := commitDimensions_globals s
      have e : actionFunc s = { commitDimensions s with
          t := 0,
          box := createBox (commitDimensions s).cubeSide (commitDimensions s).center
            (commitDimensions s).pivotPointCoord,
          clicks := (commitDimensions s).clicks.incr (commitDimensions s).sideID,
          enabled := false } := by
        simp [actionFunc, h1]
      right; left
      rw [e]
      refine ⟨h1, ?_, rfl, rfl, rfl, ?_⟩
      · simp only [c1, c3]
      · simp only [c4]
    · have e : actionFunc s = s := by
        simp [actionFunc, h0, h1]
      exact Or.inr (Or.inr ⟨fun h => h0 h.1, h1, e⟩)

end MultipleExtrusion

namespace MultipleExtrusion

/-! ## `multiple_extrusion.js`: the counters along a run -/

theorem run_nil (s : State) : run [] s = s := rfl

theorem run_cons (e : Event) (es : List Event) (s : State) :
    run (e :: es) s = run es (step s e) := rfl

theorem run_append (es₁ es₂ : List Event) (s : State) :
    run (es₁ ++ es₂) s = run es₂ (run es₁ s) := by
  simp [run, List.foldl_append]

/-- A click that lands on a face whose counter is neither startable nor 1 only
records the face in `sideID`. -/
theorem click_ignored (s : State) (n : Vec3)
    (h0 : ¬ (s.clicks.get (getSideID n) = some 0 ∧ s.enabled = false))
    (h1 : s.clicks.get (getSideID n) ≠ some 1) :
    actionFunc (windowClick (some n) s) = { s with sideID := getSideID n } := by
  have hw : windowClick (some n) s = { s with sideID := getSideID n } := by
    by_cases a : s.clicks.get (getSideID n) = some 0
    · have b : ¬ s.enabled = false := fun b => h0 ⟨a, b⟩
      simp [windowClick, a, b]
    · simp [windowClick, a]
  rw [hw]
  rcases actionFunc_cases { s with sideID := getSideID n } with h | h | h
  · exact absurd ⟨h.1, h.2.1⟩ h0
  · exact absurd h.1 h1
  · exact h.2.2

theorem step_keeps_committed (s : State) (e : Event) (f : Int)
    (h2 : s.clicks.get (some f) = some 2) : (step s e).clicks.get (some f) = some 2 := by
  cases e with
  | click pick => simp only [step]; rw [(windowClick_globals pick s).1]; exact h2
  | frame => simp only [step]; rw [(render_globals s).1]; exact h2
  | timeout =>
    simp only [step]
    rcases actionFunc_cases s with h | h | h
    · obtain ⟨k, hk⟩ := Clicks.get_eq_some _ _ _ h.1
      rw [h.2.2.1, hk]
      have hne : f ≠ k := by
        rintro rfl
        rw [hk, h2] at h
        exact absurd h.1 (by simp)
      rw [Clicks.get_incr_other _ _ _ hne]; exact h2
    · obtain ⟨k, hk⟩ := Clicks.get_eq_some _ _ _ h.1
      rw [h.2.1, hk]
      have hne : f ≠ k := by
        rintro rfl
        rw [hk, h2] at h
        exact absurd h.1 (by simp)
      rw [Clicks.get_incr_other _ _ _ hne]; exact h2
    · rw [h.2.2]; exact h2

theorem run_keeps_committed (es : List Event) (s : State) (f : Int)
    (h2 : s.clicks.get (some f) = some 2) : (run es s).clicks.get (some f) = some 2 := by
  induction es generalizing s with
  | nil => exact h2
  | cons e es ih => rw [run_cons]; exact ih _ (step_keeps_committed s e f h2)

theorem step_bounded (s : State) (e : Event) (hb : s.clicks.bounded) :
    (step s e).clicks.bounded := by
  cases e with
  | click pick => simp only [step]; rw [(windowClick_globals pick s).1]; exact hb
  | frame => simp only [step]; rw [(render_globals s).1]; exact hb
  | timeout =>
    simp only [step]
    rcases actionFunc_cases s with h | h | h
    · obtain ⟨k, hk⟩ := Clicks.get_eq_some _ _ _ h.1
      rw [h.2.2.1, hk]
      exact Clicks.bounded_incr _ k 0 (hk ▸ h.1) (by omega) hb
    · obtain ⟨k, hk⟩ := Clicks.get_eq_some _ _ _ h.1
      rw [h.2.1, hk]
      exact Clicks.bounded_incr _ k 1 (hk ▸ h.1) (by omega) hb
    · rw [h.2.2]; exact hb

theorem run_bounded (es : List Event) (s : State) (hb : s.clicks.bounded) :
    (run es s).clicks.bounded := by
  induction es generalizing s with
  | nil => exact hb
  | cons e es ih => rw [run_cons]; exact ih _ (step_bounded s e hb)

theorem step_extruding (s : State) (e : Event)
    (hi : s.clicks.extruding = if s.enabled = true then 1 else 0) :
    (step s e).clicks.extruding = if (step s e).enabled = true then 1 else 0 := by
  cases e with
  | click pick =>
    simp only [step, (windowClick_globals pick s).1, (windowClick_globals pick s).2.1]
    exact hi
  | frame =>
    simp only [step, (render_globals s).1, (render_globals s).2.1]
    exact hi
  | timeout =>
    simp only [step]
    rcases actionFunc_cases s with h | h | h
    · obtain ⟨k, hk⟩ := Clicks.get_eq_some _ _ _ h.1
      have h1 := Clicks.extruding_incr_zero _ k (hk ▸ h.1)
      simp only [h.2.1, Bool.false_eq_true, if_false] at hi
      simp only [h.2.2.1, h.2.2.2.1, hk, if_true]
      omega
    · obtain ⟨k, hk⟩ := Clicks.get_eq_some _ _ _ h.1
      have h1 := Clicks.extruding_incr_one _ k (hk ▸ h.1)
      have h2 := Clicks.extruding_pos _ k (hk ▸ h.1)
      simp only [h.2.1, h.2.2.1, hk, Bool.false_eq_true, if_false]
      by_cases he : s.enabled = true
      · simp [he] at hi
        omega
      · simp [he] at hi
        omega
    · simp only [h.2.2]; exact hi

theorem run_extruding (es : List Event) (s : State)
    (hi : s.clicks.extruding = if s.enabled = true then 1 else 0) :
    (run es s).clicks.extruding = if (run es s).enabled = true then 1 else 0 := by
  induction es generalizing s with
  | nil => exact hi
  | cons e es ih => rw [run_cons]; exact ih _ (step_extruding s e hi)

end MultipleExtrusion

namespace MultipleExtrusion

/-! ## `multiple_extrusion.js`: frames and the commit -/

theorem run_frames_succ (n : Nat) (s : State) :
    run (List.replicate (n + 1) Event.frame) s
      = run (List.replicate n Event.frame) (render s) := by
  rw [List.replicate_succ, run_cons]; rfl

/-- With one observer on the box and an X face recorded in `sideID`, a frame
advances `t` by `1 / 100` and sets the scaling along x only. -/
theorem render_x (s : State) (ho : s.box.observers = 1)
    (hs : s.sideID = some 1 ∨ s.sideID = some 2) :
    render s = { s with
        t := s.t + 1 / 100,
        box := { s.box with scaling := ⟨(s.t + 1 / 100) * (1 / 2) + 2, 1, 1⟩ } } := by
  simp [render, ho, onBeforeRender, hs]

/-- With one observer on the box and an X face recorded in `sideID`, `n + 1`
rendered frames advance `t` by `(n + 1) / 100` and leave the box scaled along
x only. -/
theorem run_frames_x (n : Nat) (s : State) (ho : s.box.observers = 1)
    (hs : s.sideID = some 1 ∨ s.sideID = some 2) :
    run (List.replicate (n + 1) Event.frame) s =
      { s with
        t := s.t + ((n : ℚ) + 1) / 100,
        box := { s.box with scaling := ⟨(s.t + ((n : ℚ) + 1) / 100) * (1 / 2) + 2, 1, 1⟩ } } := by
  induction n generalizing s with
  | zero =>
    rw [run_frames_succ, render_x s ho hs]
    simp [run]
  | succ k ih =>
    rw [run_frames_succ, render_x s ho hs, ih]
    · simp only [State.mk.injEq, Box.mk.injEq, Vec3.mk.injEq, true_and, and_true]
      push_cast
      constructor
      · ring
      · ring
    · exact ho
    · exact hs

/-- The commit of an X face: the x dimension is multiplied by the x scaling of
the box mesh, and the x centre is overwritten. -/
theorem actionFunc_commit_x (s : State) (hs : s.sideID = some 1 ∨ s.sideID = some 2)
    (h1 : s.clicks.get s.sideID = some 1) :
    (actionFunc s).cubeSide = ⟨s.cubeSide.x * s.box.scaling.x, s.cubeSide.y, s.cubeSide.z⟩ ∧
    (actionFunc s).center =
      ⟨if s.center.x + (if s.sideID = some 1 then 1 else 0) ≠ 0
        then (s.cubeSide.x * s.box.scaling.x - s.cubeSide.x) / 2
        else -(s.cubeSide.x * s.box.scaling.x - s.cubeSide.x) / 2,
       s.center.y, s.center.z⟩ := by
  rcases actionFunc_cases s with h | h | h
  · rw [h1] at h; exact absurd h.1 (by simp)
  · rw [h.2.2.2.1, h.2.2.2.2.1]
    simp [commitDimensions, hs, truthy, boolToNumber]
  · exact absurd h1 h.2.1

/-- The commit of a Y face: the y dimension is multiplied by `t * 0.5 + 2`, and
the y centre is overwritten. -/
theorem actionFunc_commit_y (s : State) (hs : s.sideID = some 3 ∨ s.sideID = some 4)
    (h1 : s.clicks.get s.sideID = some 1) :
    (actionFunc s).cubeSide = ⟨s.cubeSide.x, (s.t * (1 / 2) + 2) * s.cubeSide.y, s.cubeSide.z⟩ ∧
    (actionFunc s).center =
      ⟨s.center.x,
       if s.center.y + (if s.sideID = some 3 then 1 else 0) ≠ 0
        then ((s.t * (1 / 2) + 2) * s.cubeSide.y - s.cubeSide.y) / 2
        else -((s.t * (1 / 2) + 2) * s.cubeSide.y - s.cubeSide.y) / 2,
       s.center.z⟩ := by
  rcases actionFunc_cases s with h | h | h
  · rw [h1] at h; exact absurd h.1 (by simp)
  · rw [h.2.2.2.1, h.2.2.2.2.1]
    rcases hs with hs | hs <;> simp [commitDimensions, hs, truthy, boolToNumber]
  · exact absurd h1 h.2.1

/-- The commit of a Z face: the z dimension is multiplied by `t * 0.5 + 2`, and
the z centre is overwritten. -/
theorem actionFunc_commit_z (s : State) (hs : s.sideID = some 5 ∨ s.sideID = some 6)
    (h1 : s.clicks.get s.sideID = some 1) :
    (actionFunc s).cubeSide = ⟨s.cubeSide.x, s.cubeSide.y, (s.t * (1 / 2) + 2) * s.cubeSide.z⟩ ∧
    (actionFunc s).center =
      ⟨s.center.x, s.center.y,
       if s.center.z + (if s.sideID = some 5 then 1 else 0) ≠ 0
        then ((s.t * (1 / 2) + 2) * s.cubeSide.z - s.cubeSide.z) / 2
        else -((s.t * (1 / 2) + 2) * s.cubeSide.z - s.cubeSide.z) / 2⟩ := by
  rcases actionFunc_cases s with h | h | h
  · rw [h1] at h; exact absurd h.1 (by simp)
  · rw [h.2.2.2.1, h.2.2.2.2.1]
    rcases hs with hs | hs <;> simp [commitDimensions, hs, truthy, boolToNumber]
  · exact absurd h1 h.2.1

end MultipleExtrusion

namespace MultipleExtrusion

/-! ## `multiple_extrusion.js`: concrete sessions -/

/-- The state once the +X face of the initial box has started extruding. -/
theorem run_startPlusX :
    run startPlusX renderSceneAndEngine =
      { clicks := ⟨1, 0, 0, 0, 0, 0⟩, enabled := true, pivotPointCoord := ⟨-1 / 2, 0, 0⟩,
        center := ⟨0, 0, 0⟩, cubeSide := ⟨1, 1, 1⟩, sideID := some 1, t := 0,
        box := { width := 1, height := 1, depth := 1, position := ⟨0, 0, 0⟩,
                 pivot := ⟨-1 / 2, 0, 0⟩, scaling := ⟨1, 1, 1⟩, observers := 1 } } := by
  simp [run, step, startPlusX, windowClick, actionFunc, renderSceneAndEngine, getSideID,
    Clicks.get, Clicks.incr, createBox]
  norm_num

/-- The state after the +X face of the initial box was extruded over one
hundred frames and committed. -/
theorem run_extrudePlusX :
    run (extrudePlusX 100) renderSceneAndEngine =
      { clicks := ⟨2, 0, 0, 0, 0, 0⟩, enabled := false, pivotPointCoord := ⟨-1 / 2, 0, 0⟩,
        center := ⟨3 / 4, 0, 0⟩, cubeSide := ⟨5 / 2, 1, 1⟩, sideID := some 1, t := 0,
        box := { width := 5 / 2, height := 1, depth := 1, position := ⟨3 / 4, 0, 0⟩,
                 pivot := ⟨-1 / 2, 0, 0⟩, scaling := ⟨1, 1, 1⟩, observers := 0 } } := by
  rw [extrudePlusX, run_append, run_append, run_startPlusX]
  rw [show (100 : Nat) = 99 + 1 from rfl, run_frames_x 99 _ rfl (Or.inl rfl)]
  simp [run, step, startPlusX, windowClick, actionFunc, getSideID,
    Clicks.get, Clicks.incr, createBox, commitDimensions, truthy, boolToNumber]
  norm_num

/-- The state after, on that box, the -X face has extruded over one hundred
frames and has been clicked a second time, its timeout callback pending. -/
theorem run_extrudingMinusX :
    run (extrudePlusX 100 ++ extrudingMinusX 100) renderSceneAndEngine =
      { clicks := ⟨2, 1, 0, 0, 0, 0⟩, enabled := true, pivotPointCoord := ⟨2, 0, 0⟩,
        center := ⟨3 / 4, 0, 0⟩, cubeSide := ⟨5 / 2, 1, 1⟩, sideID := some 2, t := 1,
        box := { width := 5 / 2, height := 1, depth := 1, position := ⟨3 / 4, 0, 0⟩,
                 pivot := ⟨2, 0, 0⟩, scaling := ⟨5 / 2, 1, 1⟩, observers := 1 } } := by
  rw [run_append, run_extrudePlusX, extrudingMinusX, run_append, run_append]
  have h : run [Event.click (some ⟨-1, 0, 0⟩), Event.timeout]
      { clicks := ⟨2, 0, 0, 0, 0, 0⟩, enabled := false, pivotPointCoord := ⟨-1 / 2, 0, 0⟩,
        center := ⟨3 / 4, 0, 0⟩, cubeSide := ⟨5 / 2, 1, 1⟩, sideID := some 1, t := 0,
        box := { width := 5 / 2, height := 1, depth := 1, position := ⟨3 / 4, 0, 0⟩,
                 pivot := ⟨-1 / 2, 0, 0⟩, scaling := ⟨1, 1, 1⟩, observers := 0 } } =
      { clicks := ⟨2, 1, 0, 0, 0, 0⟩, enabled := true, pivotPointCoord := ⟨2, 0, 0⟩,
        center := ⟨3 / 4, 0, 0⟩, cubeSide := ⟨5 / 2, 1, 1⟩, sideID := some 2, t := 0,
        box := { width := 5 / 2, height := 1, depth := 1, position := ⟨3 / 4, 0, 0⟩,
                 pivot := ⟨2, 0, 0⟩, scaling := ⟨1, 1, 1⟩, observers := 1 } } := by
    simp [run, step, windowClick, actionFunc, getSideID, Clicks.get, Clicks.incr]
    norm_num
  rw [h, show (100 : Nat) = 99 + 1 from rfl, run_frames_x 99 _ rfl (Or.inr rfl)]
  simp [run, step, windowClick, getSideID, Clicks.get]
  norm_num

/-- The state after a full extrusion of the +Y face of the initial box with
one frame rendered. -/
theorem run_extrudePlusY :
    run extrudePlusY renderSceneAndEngine =
      { clicks := ⟨0, 0, 2, 0, 0, 0⟩, enabled := false, pivotPointCoord := ⟨0, -1 / 2, 0⟩,
        center := ⟨0, 201 / 400, 0⟩, cubeSide := ⟨1, 401 / 200, 1⟩, sideID := some 3, t := 0,
        box := { width := 1, height := 401 / 200, depth := 1, position := ⟨0, 201 / 400, 0⟩,
                 pivot := ⟨0, -1 / 2, 0⟩, scaling := ⟨1, 1, 1⟩, observers := 0 } } := by
  simp [run, step, extrudePlusY, windowClick, actionFunc, render, onBeforeRender,
    renderSceneAndEngine, getSideID, Clicks.get, Clicks.incr, createBox, commitDimensions,
    truthy, boolToNumber]
  norm_num

/-- The state after the detour session, the timeout callback of the last click
pending. -/
theorem run_detourThenPlusX :
    run detourThenPlusX renderSceneAndEngine =
      { clicks := ⟨1, 0, 0, 0, 0, 0⟩, enabled := true, pivotPointCoord := ⟨-1 / 2, 0, 0⟩,
        center := ⟨0, 0, 0⟩, cubeSide := ⟨1, 1, 1⟩, sideID := some 1, t := 3 / 100,
        box := { width := 1, height := 1, depth := 1, position := ⟨0, 0, 0⟩,
                 pivot := ⟨-1 / 2, 0, 0⟩, scaling := ⟨1, 403 / 200, 1⟩, observers := 1 } } := by
  rw [detourThenPlusX, run_append, run_startPlusX]
  simp [run, step, windowClick, render, onBeforeRender, getSideID, Clicks.get]
  norm_num

end MultipleExtrusion

namespace MultipleExtrusion

/-! ## `multiple_extrusion.js`: faces, counters and clicks -/

/-- C6: `getSideID` sends the six canonical unit normals to the six face IDs
1..6 in the order +X, -X, +Y, -Y, +Z, -Z; on these six inputs it is injective
and lands in 1..6; and the `sideID` that the window click listener stores
depends on the picked normal alone, not on the rest of the state. -/
theorem getSideID_canonical :
    getSideID ⟨1, 0, 0⟩ = some 1 ∧ getSideID ⟨-1, 0, 0⟩ = some 2 ∧
    getSideID ⟨0, 1, 0⟩ = some 3 ∧ getSideID ⟨0, -1, 0⟩ = some 4 ∧
    getSideID ⟨0, 0, 1⟩ = some 5 ∧ getSideID ⟨0, 0, -1⟩ = some 6 ∧
    (∀ a ∈ canonicalNormals, ∀ b ∈ canonicalNormals, getSideID a = getSideID b → a = b) ∧
    (∀ a ∈ canonicalNormals, ∃ k : Int, getSideID a = some k ∧ 1 ≤ k ∧ k ≤ 6) ∧
    (∀ (s₁ s₂ : State) (a : Vec3),
      (windowClick (some a) s₁).sideID = getSideID a ∧
      (windowClick (some a) s₁).sideID = (windowClick (some a) s₂).sideID) := by
  refine ⟨?_, ?_, ?_, ?_, ?_, ?_, ?_, ?_, ?_⟩
  · norm_num [getSideID]
  · norm_num [getSideID]
  · norm_num [getSideID]
  · norm_num [getSideID]
  · norm_num [getSideID]
  · norm_num [getSideID]
  · intro a ha b hb
    simp only [canonicalNormals, List.mem_cons, List.mem_singleton, List.not_mem_nil,
      or_false] at ha hb
    rcases ha with rfl | rfl | rfl | rfl | rfl | rfl <;>
      rcases hb with rfl | rfl | rfl | rfl | rfl | rfl <;>
      norm_num [getSideID]
  · intro a ha
    simp only [canonicalNormals, List.mem_cons, List.mem_singleton, List.not_mem_nil,
      or_false] at ha
    rcases ha with rfl | rfl | rfl | rfl | rfl | rfl <;> norm_num [getSideID]
  · intro s₁ s₂ a
    rw [windowClick_sideID, windowClick_sideID]
    exact ⟨rfl, rfl⟩

/-- C8: in a state where face `f` is the clicked face, its counter is 0 and no
extrusion is in progress, the timeout callback sets the counter of `f` to 1 and
`enabled` to true, and leaves the other five counters, the centre and the
dimensions as they were. -/
theorem actionFunc_start (s : State) (f : Int) (hs : s.sideID = some f)
    (h0 : s.clicks.get (some f) = some 0) (he : s.enabled = false) :
    (actionFunc s).clicks.get (some f) = some 1 ∧ (actionFunc s).enabled = true ∧
    (∀ g : Int, g ≠ f → (actionFunc s).clicks.get (some g) = s.clicks.get (some g)) ∧
    (actionFunc s).center = s.center ∧ (actionFunc s).cubeSide = s.cubeSide := by
  rcases actionFunc_cases s with h | h | h
  · obtain ⟨_, _, hc, hen, hce, hcu, _⟩ := h
    rw [hc, hs]
    refine ⟨?_, hen, ?_, hce, hcu⟩
    · simpa using Clicks.get_incr_self s.clicks f 0 h0
    · intro g hg
      exact Clicks.get_incr_other s.clicks f g hg
  · rw [hs, h0] at h
    exact absurd h.1 (by simp)
  · rw [hs] at h
    exact absurd ⟨h0, he⟩ h.1

/-- C8 at the first click of a session: the +X face of the initial box. -/
theorem actionFunc_start_witness :
    (windowClick (some ⟨1, 0, 0⟩) renderSceneAndEngine).sideID = some 1 ∧
    (windowClick (some ⟨1, 0, 0⟩) renderSceneAndEngine).clicks.get (some 1) = some 0 ∧
    (windowClick (some ⟨1, 0, 0⟩) renderSceneAndEngine).enabled = false ∧
    (actionFunc (windowClick (some ⟨1, 0, 0⟩) renderSceneAndEngine)).clicks.get (some 1)
      = some 1 ∧
    (actionFunc (windowClick (some ⟨1, 0, 0⟩) renderSceneAndEngine)).enabled = true := by
  have h1 : (windowClick (some ⟨1, 0, 0⟩) renderSceneAndEngine).sideID = some 1 := by
    simp [windowClick, getSideID, renderSceneAndEngine, Clicks.get]
  have h2 : (windowClick (some ⟨1, 0, 0⟩) renderSceneAndEngine).clicks.get (some 1)
      = some 0 := by
    simp [windowClick, getSideID, renderSceneAndEngine, Clicks.get]
  have h3 : (windowClick (some ⟨1, 0, 0⟩) renderSceneAndEngine).enabled = false := by
    simp [windowClick, getSideID, renderSceneAndEngine, Clicks.get]
  have h := actionFunc_start _ 1 h1 h2 h3
  exact ⟨h1, h2, h3, h.1, h.2.1⟩

/-- C5: when the counter of face `f` is 2, a click on `f` (the window listener
with a normal that resolves to `f`, then the timeout callback) changes nothing
but the recorded `sideID`: the six counters, `enabled`, the centre, the
dimensions and the pivot coordinates are as before.  Along any later run the
counter of `f` stays 2, and counters that are all at most 2 stay at most 2. -/
theorem committed_face_ignores_clicks (s : State) (n : Vec3) (f : Int)
    (hn : getSideID n = some f) (h2 : s.clicks.get (some f) = some 2) :
    (actionFunc (windowClick (some n) s)).clicks = s.clicks ∧
    (actionFunc (windowClick (some n) s)).enabled = s.enabled ∧
    (actionFunc (windowClick (some n) s)).center = s.center ∧
    (actionFunc (windowClick (some n) s)).cubeSide = s.cubeSide ∧
    (actionFunc (windowClick (some n) s)).pivotPointCoord = s.pivotPointCoord ∧
    (actionFunc (windowClick (some n) s)).sideID = some f ∧
    (∀ es : List Event, (run es s).clicks.get (some f) = some 2) ∧
    (∀ es : List Event, s.clicks.bounded → (run es s).clicks.bounded) ∧
    (∀ es : List Event, (run es renderSceneAndEngine).clicks.bounded) := by
  have e : actionFunc (windowClick (some n) s) = { s with sideID := getSideID n } := by
    apply click_ignored
    · rw [hn, h2]; simp
    · rw [hn, h2]; simp
  rw [e]
  refine ⟨rfl, rfl, rfl, rfl, rfl, hn, ?_, ?_, ?_⟩
  · intro es
    exact run_keeps_committed es s f h2
  · intro es hb
    exact run_bounded es s hb
  · intro es
    apply run_bounded
    simp [renderSceneAndEngine, Clicks.bounded]

/-- C5 on a box whose +X face was extruded over one hundred frames: a third
click on that face changes no counter. -/
theorem committed_face_ignores_clicks_witness :
    getSideID ⟨1, 0, 0⟩ = some 1 ∧
    (run (extrudePlusX 100) renderSceneAndEngine).clicks.get (some 1) = some 2 ∧
    (actionFunc (windowClick (some ⟨1, 0, 0⟩)
      (run (extrudePlusX 100) renderSceneAndEngine))).clicks
      = (run (extrudePlusX 100) renderSceneAndEngine).clicks := by
  have h1 : getSideID ⟨1, 0, 0⟩ = some 1 := by norm_num [getSideID]
  have h2 : (run (extrudePlusX 100) renderSceneAndEngine).clicks.get (some 1) = some 2 := by
    rw [run_extrudePlusX]
    simp [Clicks.get]
  exact ⟨h1, h2, (committed_face_ignores_clicks _ ⟨1, 0, 0⟩ 1 h1 h2).1⟩

end MultipleExtrusion

namespace MultipleExtrusion

/-! ## `multiple_extrusion.js`: runs from the initial state -/

/-- C4: in every state reached from the initial state by any list of window
clicks (hit or miss, any normal), timeout callbacks and frames, at most one of
the six counters is 1, and `enabled` is true exactly when some counter is 1;
and in such a state with `enabled` true, a click on a face whose counter is 0
changes nothing but the recorded `sideID`, so no second extrusion starts. -/
theorem one_face_extruding (es : List Event) :
    (∀ f g : Int, (run es renderSceneAndEngine).clicks.get (some f) = some 1 →
      (run es renderSceneAndEngine).clicks.get (some g) = some 1 → f = g) ∧
    ((run es renderSceneAndEngine).enabled = true ↔
      ∃ f : Int, (run es renderSceneAndEngine).clicks.get (some f) = some 1) ∧
    (∀ n : Vec3, (run es renderSceneAndEngine).enabled = true →
      (run es renderSceneAndEngine).clicks.get (getSideID n) = some 0 →
      actionFunc (windowClick (some n) (run es renderSceneAndEngine)) =
        { run es renderSceneAndEngine with sideID := getSideID n }) := by
  have hi := run_extruding es renderSceneAndEngine
    (by simp [renderSceneAndEngine, Clicks.extruding])
  refine ⟨?_, ?_, ?_⟩
  · intro f g hf hg
    apply Clicks.extruding_unique _ f g _ hf hg
    rw [hi]
    split_ifs <;> omega
  · constructor
    · intro he
      apply Clicks.extruding_exists
      rw [hi, if_pos he]
    · rintro ⟨f, hf⟩
      have h1 := Clicks.extruding_pos _ f hf
      by_contra he
      rw [hi, if_neg he] at h1
      omega
  · intro n he h0
    apply click_ignored
    · rintro ⟨_, h⟩
      rw [he] at h
      exact absurd h (by simp)
    · rw [h0]; simp

/-- Between the start of the +X extrusion of the initial box and its commit,
whatever events arrive, the dimensions and the centre are those of the
initial box. -/
theorem run_before_commit (es : List Event) (s : State)
    (hJ : (s.clicks = ⟨1, 0, 0, 0, 0, 0⟩ ∧ s.enabled = true ∧ s.cubeSide = ⟨1, 1, 1⟩ ∧
        s.center = ⟨0, 0, 0⟩) ∨ s.clicks.get (some 1) = some 2) :
    ((run es s).clicks = ⟨1, 0, 0, 0, 0, 0⟩ ∧ (run es s).enabled = true ∧
        (run es s).cubeSide = ⟨1, 1, 1⟩ ∧ (run es s).center = ⟨0, 0, 0⟩) ∨
      (run es s).clicks.get (some 1) = some 2 := by
  induction es generalizing s with
  | nil => exact hJ
  | cons e es ih =>
    rw [run_cons]
    apply ih
    rcases hJ with ⟨hc, he, hcu, hce⟩ | h2
    · cases e with
      | click pick =>
        obtain ⟨a1, a2, a3, a4, _⟩ := windowClick_globals pick s
        exact Or.inl ⟨a1.trans hc, a2.trans he, a4.trans hcu, a3.trans hce⟩
      | frame =>
        obtain ⟨a1, a2, a3, a4, _⟩ := render_globals s
        exact Or.inl ⟨a1.trans hc, a2.trans he, a4.trans hcu, a3.trans hce⟩
      | timeout =>
        simp only [step]
        rcases actionFunc_cases s with h | h | h
        · rw [he] at h
          exact absurd h.2.1 (by simp)
        · right
          obtain ⟨k, hk⟩ := Clicks.get_eq_some _ _ _ h.1
          have hk1 : s.clicks.get (some k) = some 1 := hk ▸ h.1
          have : k = 1 := by
            rcases Clicks.get_some_range _ _ _ hk1 with rfl | rfl | rfl | rfl | rfl | rfl <;>
              first
                | rfl
                | (rw [hc] at hk1; simp [Clicks.get] at hk1)
          subst this
          rw [h.2.1, hk]
          exact Clicks.get_incr_self _ _ _ hk1
        · rw [h.2.2]
          exact Or.inl ⟨hc, he, hcu, hce⟩
    · exact Or.inr (step_keeps_committed s e 1 h2)

/-- C3: from the initial state, click the +X face to start the extrusion, let
any events go by, and, the face not being committed yet, click it again while
the x scaling of the box is `s`: the dimensions become `(1 * s, 1, 1)` and the
centre `((s - 1) / 2, 0, 0)`; for `s = 5/2` that is `5/2` and `3/4`. -/
theorem extrude_plusX_from_initial (es : List Event)
    (h1 : (run (startPlusX ++ es) renderSceneAndEngine).clicks.get (some 1) = some 1) :
    (run (startPlusX ++ es ++ startPlusX) renderSceneAndEngine).cubeSide =
      ⟨1 * (run (startPlusX ++ es) renderSceneAndEngine).box.scaling.x, 1, 1⟩ ∧
    (run (startPlusX ++ es ++ startPlusX) renderSceneAndEngine).center =
      ⟨((run (startPlusX ++ es) renderSceneAndEngine).box.scaling.x - 1) / 2, 0, 0⟩ ∧
    ((run (startPlusX ++ es) renderSceneAndEngine).box.scaling.x = 5 / 2 →
      (run (startPlusX ++ es ++ startPlusX) renderSceneAndEngine).cubeSide.x = 5 / 2 ∧
      (run (startPlusX ++ es ++ startPlusX) renderSceneAndEngine).center.x = 3 / 4) := by
  have hJ := run_before_commit es (run startPlusX renderSceneAndEngine)
    (Or.inl (by rw [run_startPlusX]; exact ⟨rfl, rfl, rfl, rfl⟩))
  rw [← run_append] at hJ
  rw [run_append (startPlusX ++ es) startPlusX]
  generalize run (startPlusX ++ es) renderSceneAndEngine = σ at *
  rcases hJ with ⟨hc, he, hcu, hce⟩ | h2
  · have hrun : run startPlusX σ = actionFunc (windowClick (some ⟨1, 0, 0⟩) σ) := rfl
    have hg : getSideID ⟨1, 0, 0⟩ = some 1 := by norm_num [getSideID]
    obtain ⟨a1, _, a3, a4, _, a6, _⟩ := windowClick_globals (some ⟨1, 0, 0⟩) σ
    have hs : (windowClick (some ⟨1, 0, 0⟩) σ).sideID = some 1 := by
      rw [windowClick_sideID, hg]
    have hx := actionFunc_commit_x (windowClick (some ⟨1, 0, 0⟩) σ) (Or.inl hs)
      (by rw [hs, a1]; exact h1)
    rw [hrun, hx.1, hx.2, a3, a4, a6, hs, hcu, hce]
    refine ⟨rfl, ?_, ?_⟩
    · norm_num
    · intro h52
      rw [h52]
      norm_num
  · rw [h1] at h2
    exact absurd h2 (by simp)

/-- C3 with one hundred frames between the two clicks: the x scaling is 5/2 at
the second click, and the box ends with x dimension 5/2 centred at x = 3/4. -/
theorem extrude_plusX_from_initial_witness :
    (run (startPlusX ++ List.replicate 100 Event.frame) renderSceneAndEngine).clicks.get
      (some 1) = some 1 ∧
    (run (startPlusX ++ List.replicate 100 Event.frame) renderSceneAndEngine).box.scaling.x
      = 5 / 2 ∧
    (run (startPlusX ++ List.replicate 100 Event.frame ++ startPlusX)
      renderSceneAndEngine).cubeSide.x = 5 / 2 ∧
    (run (startPlusX ++ List.replicate 100 Event.frame ++ startPlusX)
      renderSceneAndEngine).center.x = 3 / 4 := by
  have e : run (startPlusX ++ List.replicate 100 Event.frame) renderSceneAndEngine =
      { clicks := ⟨1, 0, 0, 0, 0, 0⟩, enabled := true, pivotPointCoord := ⟨-1 / 2, 0, 0⟩,
        center := ⟨0, 0, 0⟩, cubeSide := ⟨1, 1, 1⟩, sideID := some 1, t := 1,
        box := { width := 1, height := 1, depth := 1, position := ⟨0, 0, 0⟩,
                 pivot := ⟨-1 / 2, 0, 0⟩, scaling := ⟨5 / 2, 1, 1⟩, observers := 1 } } := by
    rw [run_append, run_startPlusX, show (100 : Nat) = 99 + 1 from rfl,
      run_frames_x 99 _ rfl (Or.inl rfl)]
    norm_num
  have h1 : (run (startPlusX ++ List.replicate 100 Event.frame)
      renderSceneAndEngine).clicks.get (some 1) = some 1 := by
    rw [e]; simp [Clicks.get]
  have h2 : (run (startPlusX ++ List.replicate 100 Event.frame)
      renderSceneAndEngine).box.scaling.x = 5 / 2 := by
    rw [e]
  have h := extrude_plusX_from_initial (List.replicate 100 Event.frame) h1
  exact ⟨h1, h2, (h.2.2 h2).1, (h.2.2 h2).2⟩

end MultipleExtrusion

namespace MultipleExtrusion

/-- C7, as the code has it: for a canonical normal `n`, a hit on a face whose
counter is 0 while `enabled` is false sets the pivot coordinates to
`-(cubeSide / 2) * n + center` on the axis of `n` and to the centre's own
coordinate on each of the other two axes (zero only when the centre is); the
pivot point of the box mesh is set to the same point. -/
theorem windowClick_pivot (s : State) (n : Vec3) (hn : n ∈ canonicalNormals)
    (h0 : s.clicks.get (getSideID n) = some 0) (he : s.enabled = false) :
    (windowClick (some n) s).pivotPointCoord =
      ⟨-(s.cubeSide.x / 2) * n.x + s.center.x, -(s.cubeSide.y / 2) * n.y + s.center.y,
       -(s.cubeSide.z / 2) * n.z + s.center.z⟩ ∧
    (n.x = 0 → (windowClick (some n) s).pivotPointCoord.x = s.center.x) ∧
    (n.y = 0 → (windowClick (some n) s).pivotPointCoord.y = s.center.y) ∧
    (n.z = 0 → (windowClick (some n) s).pivotPointCoord.z = s.center.z) ∧
    (windowClick (some n) s).box.pivot = (windowClick (some n) s).pivotPointCoord := by
  have hp : (windowClick (some n) s).pivotPointCoord =
      ⟨-(s.cubeSide.x / 2) * n.x + s.center.x, -(s.cubeSide.y / 2) * n.y + s.center.y,
       -(s.cubeSide.z / 2) * n.z + s.center.z⟩ ∧
      (windowClick (some n) s).box.pivot = (windowClick (some n) s).pivotPointCoord := by
    simp only [canonicalNormals, List.mem_cons, List.mem_singleton, List.not_mem_nil,
      or_false] at hn
    rcases hn with rfl | rfl | rfl | rfl | rfl | rfl
    · have hg : getSideID ⟨1, 0, 0⟩ = some 1 := by norm_num [getSideID]
      rw [hg] at h0
      simp only [windowClick, hg, h0, he]
      norm_num
      ring
    · have hg : getSideID ⟨-1, 0, 0⟩ = some 2 := by norm_num [getSideID]
      rw [hg] at h0
      simp only [windowClick, hg, h0, he]
      norm_num
      ring
    · have hg : getSideID ⟨0, 1, 0⟩ = some 3 := by norm_num [getSideID]
      rw [hg] at h0
      simp only [windowClick, hg, h0, he]
      norm_num
      ring
    · have hg : getSideID ⟨0, -1, 0⟩ = some 4 := by norm_num [getSideID]
      rw [hg] at h0
      simp only [windowClick, hg, h0, he]
      norm_num
      ring
    · have hg : getSideID ⟨0, 0, 1⟩ = some 5 := by norm_num [getSideID]
      rw [hg] at h0
      simp only [windowClick, hg, h0, he]
      norm_num
      ring
    · have hg : getSideID ⟨0, 0, -1⟩ = some 6 := by norm_num [getSideID]
      rw [hg] at h0
      simp only [windowClick, hg, h0, he]
      norm_num
      ring
  refine ⟨hp.1, ?_, ?_, ?_, hp.2⟩
  · intro hz; rw [hp.1, hz]; simp
  · intro hz; rw [hp.1, hz]; simp
  · intro hz; rw [hp.1, hz]; simp

/-- C7 on a box whose +Y face has been extruded: a first click on the +X face
puts the pivot at `(-1/2, 201/400, 0)`, the centre's height on the y axis. -/
theorem windowClick_pivot_witness :
    (⟨1, 0, 0⟩ : Vec3) ∈ canonicalNormals ∧
    (run extrudePlusY renderSceneAndEngine).clicks.get (getSideID ⟨1, 0, 0⟩) = some 0 ∧
    (run extrudePlusY renderSceneAndEngine).enabled = false ∧
    (windowClick (some ⟨1, 0, 0⟩) (run extrudePlusY renderSceneAndEngine)).pivotPointCoord
      = ⟨-1 / 2, 201 / 400, 0⟩ := by
  have hn : (⟨1, 0, 0⟩ : Vec3) ∈ canonicalNormals := by simp [canonicalNormals]
  have hg : getSideID ⟨1, 0, 0⟩ = some 1 := by norm_num [getSideID]
  have h0 : (run extrudePlusY renderSceneAndEngine).clicks.get (getSideID ⟨1, 0, 0⟩)
      = some 0 := by
    rw [run_extrudePlusY, hg]; simp [Clicks.get]
  have he : (run extrudePlusY renderSceneAndEngine).enabled = false := by
    rw [run_extrudePlusY]
  refine ⟨hn, h0, he, ?_⟩
  rw [(windowClick_pivot _ ⟨1, 0, 0⟩ hn h0 he).1, run_extrudePlusY]
  norm_num

/-- C7 as written fails: on a box whose +Y face has been extruded, a first
click on the +X face (canonical normal, counter 0, `enabled` false) leaves the
pivot's y coordinate at 201/400, not at zero. -/
theorem pivot_off_axis_nonzero_counterexample :
    (⟨1, 0, 0⟩ : Vec3) ∈ canonicalNormals ∧
    (run extrudePlusY renderSceneAndEngine).clicks.get (getSideID ⟨1, 0, 0⟩) = some 0 ∧
    (run extrudePlusY renderSceneAndEngine).enabled = false ∧
    (windowClick (some ⟨1, 0, 0⟩)
      (run extrudePlusY renderSceneAndEngine)).pivotPointCoord.y = 201 / 400 ∧
    (windowClick (some ⟨1, 0, 0⟩)
      (run extrudePlusY renderSceneAndEngine)).pivotPointCoord.y ≠ 0 := by
  have hy : (windowClick (some ⟨1, 0, 0⟩)
      (run extrudePlusY renderSceneAndEngine)).pivotPointCoord.y = 201 / 400 := by
    rw [run_extrudePlusY]
    simp [windowClick, getSideID, Clicks.get]
  refine ⟨by simp [canonicalNormals], ?_, ?_, hy, ?_⟩
  · rw [run_extrudePlusY]
    norm_num [getSideID, Clicks.get]
  · rw [run_extrudePlusY]
  · rw [hy]; norm_num

/-- C1 at a reachable state: the +X face is extruding, a click on a mesh with
normal (0,1,0) has turned the animation to the y axis, and the +X face is
clicked again.  At the commit `t * 0.5 + 2` is 403/200 but the x scaling of the
box mesh is 1, and the code multiplies the x dimension by the latter: it stays
1 and is not `1 * 403/200`. -/
theorem commit_x_reads_mesh_scaling :
    (run detourThenPlusX renderSceneAndEngine).sideID = some 1 ∧
    (run detourThenPlusX renderSceneAndEngine).clicks.get (some 1) = some 1 ∧
    (run detourThenPlusX renderSceneAndEngine).cubeSide.x = 1 ∧
    (run detourThenPlusX renderSceneAndEngine).t * (1 / 2) + 2 = 403 / 200 ∧
    (run detourThenPlusX renderSceneAndEngine).box.scaling.x = 1 ∧
    (actionFunc (run detourThenPlusX renderSceneAndEngine)).cubeSide.x = 1 ∧
    (actionFunc (run detourThenPlusX renderSceneAndEngine)).cubeSide.x ≠
      (run detourThenPlusX renderSceneAndEngine).cubeSide.x *
        ((run detourThenPlusX renderSceneAndEngine).t * (1 / 2) + 2) := by
  have hx : (actionFunc (run detourThenPlusX renderSceneAndEngine)).cubeSide.x = 1 := by
    rw [run_detourThenPlusX]
    simp [actionFunc, commitDimensions, Clicks.get]
  rw [hx, run_detourThenPlusX]
  refine ⟨rfl, ?_, rfl, ?_, rfl, rfl, ?_⟩
  · simp [Clicks.get]
  · norm_num
  · norm_num

/-- C2 at a reachable state: the +X face was extruded (centre x = 3/4, x
dimension 5/2), then the -X face extrudes and is clicked again.  The commit
takes the x dimension to 25/4 and sets the centre x to +15/8; a shift of the
old centre by `-(25/4 - 5/2) / 2` would give -9/8. -/
theorem commit_center_not_shifted :
    (run (extrudePlusX 100 ++ extrudingMinusX 100) renderSceneAndEngine).sideID = some 2 ∧
    (run (extrudePlusX 100 ++ extrudingMinusX 100) renderSceneAndEngine).clicks.get (some 2)
      = some 1 ∧
    (run (extrudePlusX 100 ++ extrudingMinusX 100) renderSceneAndEngine).center.x = 3 / 4 ∧
    (run (extrudePlusX 100 ++ extrudingMinusX 100) renderSceneAndEngine).cubeSide.x = 5 / 2 ∧
    (actionFunc (run (extrudePlusX 100 ++ extrudingMinusX 100)
      renderSceneAndEngine)).cubeSide.x = 25 / 4 ∧
    (actionFunc (run (extrudePlusX 100 ++ extrudingMinusX 100)
      renderSceneAndEngine)).center.x = 15 / 8 ∧
    (actionFunc (run (extrudePlusX 100 ++ extrudingMinusX 100)
      renderSceneAndEngine)).center.x ≠
      (run (extrudePlusX 100 ++ extrudingMinusX 100) renderSceneAndEngine).center.x -
        ((actionFunc (run (extrudePlusX 100 ++ extrudingMinusX 100)
            renderSceneAndEngine)).cubeSide.x -
          (run (extrudePlusX 100 ++ extrudingMinusX 100) renderSceneAndEngine).cubeSide.x)
          / 2 := by
  have hx : (actionFunc (run (extrudePlusX 100 ++ extrudingMinusX 100)
      renderSceneAndEngine)).cubeSide.x = 25 / 4 := by
    rw [run_extrudingMinusX]
    simp [actionFunc, commitDimensions, Clicks.get]
    norm_num
  have hc : (actionFunc (run (extrudePlusX 100 ++ extrudingMinusX 100)
      renderSceneAndEngine)).center.x = 15 / 8 := by
    rw [run_extrudingMinusX]
    simp [actionFunc, commitDimensions, Clicks.get, truthy, boolToNumber]
    norm_num
  rw [hx, hc, run_extrudingMinusX]
  refine ⟨rfl, ?_, rfl, rfl, rfl, rfl, ?_⟩
  · simp [Clicks.get]
  · norm_num

/-- C9 at a reachable interleaving: the +X face starts extruding, a click
lands on a mesh with normal (0,1,0), and the first frame is rendered.  That
frame sets the scaling to `(1, 401/200, 1)`: the factor `2 + 0.005 * 1` is on
the y axis, and the x axis of the extruding face is back at 1. -/
theorem frame_follows_last_click :
    (run (startPlusX ++ [Event.click (some ⟨0, 1, 0⟩)]) renderSceneAndEngine).clicks.get
      (some 1) = some 1 ∧
    (run (startPlusX ++ [Event.click (some ⟨0, 1, 0⟩), Event.frame])
      renderSceneAndEngine).box.scaling = ⟨1, 401 / 200, 1⟩ ∧
    (run (startPlusX ++ [Event.click (some ⟨0, 1, 0⟩), Event.frame])
      renderSceneAndEngine).box.scaling ≠ ⟨401 / 200, 1, 1⟩ := by
  have hs : (run (startPlusX ++ [Event.click (some ⟨0, 1, 0⟩), Event.frame])
      renderSceneAndEngine).box.scaling = ⟨1, 401 / 200, 1⟩ := by
    rw [run_append, run_startPlusX]
    simp [run, step, windowClick, render, onBeforeRender, getSideID, Clicks.get]
    norm_num
  refine ⟨?_, hs, ?_⟩
  · rw [run_append, run_startPlusX]
    simp [run, step, windowClick, getSideID, Clicks.get]
  · rw [hs]
    norm_num

end MultipleExtrusion

namespace Main

/-! ## `main.js`: the axis of the animation -/

theorem callback_globals (s : State) :
    (onBeforeRender s).pivotPointCoord = s.pivotPointCoord ∧
    (onBeforeRender s).box.observers = s.box.observers ∧
    (onBeforeRender s).t = s.t + 1 / 100 := by
  unfold onBeforeRender
  simp only
  split_ifs <;> exact ⟨rfl, rfl, rfl⟩

/-- One run of the callback with the pivot at `-0.5 * n`, `n` canonical. -/
theorem onBeforeRender_scaling (s : State) (n : Vec3) (hn : n ∈ canonicalNormals)
    (hp : s.pivotPointCoord = ⟨-(1 / 2) * n.x, -(1 / 2) * n.y, -(1 / 2) * n.z⟩) :
    scaledAlong n (onBeforeRender s).box.scaling ((onBeforeRender s).t * (1 / 2) + 2) := by
  simp only [canonicalNormals, List.mem_cons, List.mem_singleton, List.not_mem_nil,
    or_false] at hn
  rcases hn with rfl | rfl | rfl | rfl | rfl | rfl <;>
    norm_num [scaledAlong, onBeforeRender, hp]

theorem iterate_onBeforeRender (m : Nat) (s : State) (n : Vec3) (hn : n ∈ canonicalNormals)
    (hp : s.pivotPointCoord = ⟨-(1 / 2) * n.x, -(1 / 2) * n.y, -(1 / 2) * n.z⟩) :
    (Nat.iterate onBeforeRender (m + 1) s).pivotPointCoord = s.pivotPointCoord ∧
    (Nat.iterate onBeforeRender (m + 1) s).box.observers = s.box.observers ∧
    (Nat.iterate onBeforeRender (m + 1) s).t = s.t + ((m : ℚ) + 1) / 100 ∧
    scaledAlong n (Nat.iterate onBeforeRender (m + 1) s).box.scaling
      ((Nat.iterate onBeforeRender (m + 1) s).t * (1 / 2) + 2) := by
  induction m with
  | zero =>
    obtain ⟨a1, a2, a3⟩ := callback_globals s
    refine ⟨a1, a2, ?_, onBeforeRender_scaling s n hn hp⟩
    simp only [Function.iterate_succ, Function.iterate_zero, Function.comp, id]
    rw [a3]; norm_num
  | succ k ih =>
    obtain ⟨b1, b2, b3, _⟩ := ih
    rw [Function.iterate_succ_apply']
    obtain ⟨a1, a2, a3⟩ := callback_globals (Nat.iterate onBeforeRender (k + 1) s)
    refine ⟨a1.trans b1, a2.trans b2, ?_, onBeforeRender_scaling _ n hn (b1.trans hp)⟩
    rw [a3, b3]; push_cast; ring

theorem render_scaling (s : State) (n : Vec3) (hn : n ∈ canonicalNormals)
    (hp : s.pivotPointCoord = ⟨-(1 / 2) * n.x, -(1 / 2) * n.y, -(1 / 2) * n.z⟩)
    (ho : 1 ≤ s.box.observers) :
    (render s).pivotPointCoord = s.pivotPointCoord ∧
    (render s).box.observers = s.box.observers ∧
    (render s).t = s.t + (s.box.observers : ℚ) / 100 ∧
    scaledAlong n (render s).box.scaling ((render s).t * (1 / 2) + 2) := by
  obtain ⟨m, hm⟩ : ∃ m, s.box.observers = m + 1 := ⟨s.box.observers - 1, by omega⟩
  have h := iterate_onBeforeRender m s n hn hp
  unfold render
  rw [hm] at h ⊢
  obtain ⟨h1, h2, h3, h4⟩ := h
  refine ⟨h1, h2, ?_, h4⟩
  rw [h3]; push_cast; ring

theorem iterate_render_scaling (k : Nat) (s : State) (n : Vec3) (hn : n ∈ canonicalNormals)
    (hp : s.pivotPointCoord = ⟨-(1 / 2) * n.x, -(1 / 2) * n.y, -(1 / 2) * n.z⟩)
    (ho : 1 ≤ s.box.observers) :
    (Nat.iterate render (k + 1) s).pivotPointCoord = s.pivotPointCoord ∧
    (Nat.iterate render (k + 1) s).box.observers = s.box.observers ∧
    (Nat.iterate render (k + 1) s).t
      = s.t + ((k : ℚ) + 1) * (s.box.observers : ℚ) / 100 ∧
    scaledAlong n (Nat.iterate render (k + 1) s).box.scaling
      ((Nat.iterate render (k + 1) s).t * (1 / 2) + 2) := by
  induction k with
  | zero =>
    obtain ⟨a1, a2, a3, a4⟩ := render_scaling s n hn hp ho
    refine ⟨a1, a2, ?_, a4⟩
    simp only [Function.iterate_succ, Function.iterate_zero, Function.comp, id]
    rw [a3]; norm_num
  | succ j ih =>
    obtain ⟨b1, b2, b3, _⟩ := ih
    rw [Function.iterate_succ_apply']
    obtain ⟨a1, a2, a3, a4⟩ := render_scaling (Nat.iterate render (j + 1) s) n hn
      (b1.trans hp) (by rw [b2]; exact ho)
    refine ⟨a1.trans b1, a2.trans b2, ?_, a4⟩
    rw [a3, b3, b2]; push_cast; ring

/-- C10: in `main.js`, with `clicks = 0`, a hit on a face with canonical normal
`n` sets the pivot coordinates to `-0.5 * n`; the timeout callback of that
first click registers the per-frame callback; and after each of the following
frames the scaling of the box has the factor `t * 0.5 + 2` on the axis of `n`
(x for (+-1,0,0), y for (0,+-1,0), z for (0,0,+-1)) and 1 on the other two
axes, `t` having grown by 1/100 per registered callback and frame.  The second
test of the callback compares `z` twice and still selects the y axis. -/
theorem frame_scales_clicked_axis (s : State) (n : Vec3) (k : Nat) (hc : s.clicks = 0)
    (hn : n ∈ canonicalNormals) :
    (windowClick (some n) s).pivotPointCoord
      = ⟨-(1 / 2) * n.x, -(1 / 2) * n.y, -(1 / 2) * n.z⟩ ∧
    (timeoutCallback (windowClick (some n) s)).box.observers = s.box.observers + 1 ∧
    (Nat.iterate render (k + 1) (timeoutCallback (windowClick (some n) s))).t
      = s.t + ((k : ℚ) + 1) * ((s.box.observers : ℚ) + 1) / 100 ∧
    scaledAlong n
      (Nat.iterate render (k + 1) (timeoutCallback (windowClick (some n) s))).box.scaling
      ((Nat.iterate render (k + 1) (timeoutCallback (windowClick (some n) s))).t * (1 / 2) + 2)
    := by
  have hw : windowClick (some n) s = { s with
      pivotPointCoord := ⟨-(1 / 2) * n.x, -(1 / 2) * n.y, -(1 / 2) * n.z⟩,
      box := { s.box with pivot := ⟨-(1 / 2) * n.x, -(1 / 2) * n.y, -(1 / 2) * n.z⟩ } } := by
    simp [windowClick, hc]
  have ht : timeoutCallback (windowClick (some n) s) = { s with
      pivotPointCoord := ⟨-(1 / 2) * n.x, -(1 / 2) * n.y, -(1 / 2) * n.z⟩,
      clicks := s.clicks + 1,
      box := { s.box with pivot := ⟨-(1 / 2) * n.x, -(1 / 2) * n.y, -(1 / 2) * n.z⟩,
                          observers := s.box.observers + 1 } } := by
    rw [hw]
    simp [timeoutCallback, hc]
  obtain ⟨_, _, a3, a4⟩ := iterate_render_scaling k (timeoutCallback (windowClick (some n) s))
    n hn (by rw [ht]) (by rw [ht]; simp)
  refine ⟨by rw [hw], by rw [ht], ?_, a4⟩
  rw [a3, ht]
  push_cast
  ring

/-- C10 on the initial scene of `main.js` with the +Y face clicked: the first
frame scales the box to `(1, 401/200, 1)`. -/
theorem frame_scales_clicked_axis_witness :
    renderSceneAndEngine.clicks = 0 ∧ (⟨0, 1, 0⟩ : Vec3) ∈ canonicalNormals ∧
    (render (timeoutCallback (windowClick (some ⟨0, 1, 0⟩) renderSceneAndEngine))).box.scaling
      = ⟨1, 401 / 200, 1⟩ := by
  have hc : renderSceneAndEngine.clicks = 0 := rfl
  have hn : (⟨0, 1, 0⟩ : Vec3) ∈ canonicalNormals := by simp [canonicalNormals]
  obtain ⟨_, _, h3, h4⟩ := frame_scales_clicked_axis renderSceneAndEngine ⟨0, 1, 0⟩ 0 hc hn
  refine ⟨hc, hn, ?_⟩
  have hy := h4.2.1 (by norm_num)
  simp only [Function.iterate_succ, Function.iterate_zero, Function.comp, id] at hy h3
  rw [hy, h3]
  norm_num [renderSceneAndEngine, createBox]

end Main
